import Mathlib

/-!
# A shallow embedding of the `stm32l4xx-hal` SDMMC and PWR drivers

This file embeds the control flow of `src/sdmmc.rs` (the SD/SDIO host
driver) and the wake-up-reason read of `src/pwr.rs` into Lean, and proves
the stated properties of those functions against the embedding.

Modelling conventions:

* Hardware is modelled by an oracle (`Sd.Device`): the driver's calls to
  `SdMmc::cmd` are numbered 0, 1, 2, … in issue order, and the oracle fixes
  the outcome of the `k`-th call (`cmdRes k`) together with the contents of
  the response registers after that call (`resp1 k`, …, `resp4 k`).  The
  status/FIFO polls of the SCR data-path drain are numbered separately
  (`dataSta j` for the `j`-th status poll, `fifo w` for the `w`-th FIFO
  read).  An oracle indexed by call position subsumes every behaviour of the
  real registers as seen by this straight-line driver.
* Rust `u32`/`u64` values are `Nat` with explicit truncation where the code
  can overflow; the arithmetic in this driver stays below `2^32` (checked at
  each definition).
* The unbounded Rust busy-wait loops (`while … {}`, `loop { … }`) are given
  an explicit fuel parameter and return `Option`; `none` means the loop was
  still spinning after `fuel` polls, matching non-termination of the source.
  The bounded loops (`timeout = 0xffff`, `for _ in 0..timeout`) use their
  source-given bound as the fuel.
* Field accessors of descriptor types (`OCR`, `CIC`, `RCA`, `SCR`,
  `CardStatus`) come from the `sdio-host` dependency crate; they are
  modelled from the SD specification's bit layouts, as documented on each.
-/

namespace Sd

/-- `Error` of `src/sdmmc.rs` (lines 139–149). -/
inductive Error where
  | NoCard
  | SoftwareTimeout
  | Crc
  | DataCrcFail
  | RxOverFlow
  | Timeout
  | TxUnderErr
  | RespCmdMismatch
deriving DecidableEq, Repr

/-- `BusWidth` of `src/sdmmc.rs` (lines 119–125). -/
inductive BusWidth where
  | One
  | Four
  | Eight
deriving DecidableEq, Repr

/-- `SdCardVersion` of `src/sdmmc.rs` (lines 245–249). -/
inductive SdCardVersion where
  | V1
  | V2
deriving DecidableEq, Repr

/-- `u32::swap_bytes`: reverse the four bytes of a 32-bit word. -/
def swap_bytes (x : Nat) : Nat :=
  let x := x % 2 ^ 32
  x % 2 ^ 8 * 2 ^ 24 + x / 2 ^ 8 % 2 ^ 8 * 2 ^ 16 + x / 2 ^ 16 % 2 ^ 8 * 2 ^ 8
    + x / 2 ^ 24

/-- `CIC::pattern` from the `sdio-host` dependency, modelled from the SD
specification: the echoed check pattern is the low byte of the interface
condition response word. -/
def cic_pattern (r : Nat) : Nat := r % 2 ^ 8

/-- `OCR::is_busy` from the `sdio-host` dependency, modelled from the SD
specification: bit 31 of the OCR is the power-up-complete bit; the card is
busy while it is still clear. -/
def ocr_is_busy (r : Nat) : Bool := decide (r / 2 ^ 31 % 2 = 0)

/-- `OCR::high_capacity` from the `sdio-host` dependency, modelled from the
SD specification: bit 30 of the OCR is the card-capacity-status bit. -/
def ocr_high_capacity (r : Nat) : Bool := decide (r / 2 ^ 30 % 2 = 1)

/-- `RCA::address` from the `sdio-host` dependency, modelled from the SD
specification: the published RCA occupies the upper 16 bits of the
`send_relative_address` response word. -/
def rca_address (r : Nat) : Nat := r / 2 ^ 16 % 2 ^ 16

/-- `SCR::bus_width_four` from the `sdio-host` dependency, modelled from the
SD specification: bit 50 of the 64-bit SCR advertises 4-bit bus support. -/
def scr_bus_width_four (scr : Nat) : Bool := decide (scr / 2 ^ 50 % 2 = 1)

/-- `SCR::from([u32; 2])` from the `sdio-host` dependency: the low-index
array word is the low half of the 64-bit SCR. -/
def scr_u64 (lo hi : Nat) : Nat := lo % 2 ^ 32 + hi % 2 ^ 32 * 2 ^ 32

/-- `CardStatus::state` from the `sdio-host` dependency, modelled from the SD
specification: the current-state field is bits 9–12 of the card status word;
state 4 is `CurrentState::Transfer`. -/
def card_state (r : Nat) : Nat := r / 2 ^ 9 % 2 ^ 4

/-- `SdCard` of `src/sdmmc.rs` (lines 198–206); descriptors are kept as the
raw response words they are assembled from.  `capacityHigh` renders
`capacity: CardCapacity` (`true` = `HighCapacity`). -/
structure SdCard where
  capacityHigh : Bool
  ocr : Nat
  cid : Nat × Nat × Nat × Nat
  rca : Nat
  csd : Nat × Nat × Nat × Nat
  scr : Nat × Nat
deriving DecidableEq, Repr

/-- `SdCard::get_address` (`src/sdmmc.rs` lines 230–232). -/
def SdCard.get_address (c : SdCard) : Nat := rca_address c.rca

/-- `SdCard::supports_widebus` (`src/sdmmc.rs` lines 234–236). -/
def SdCard.supports_widebus (c : SdCard) : Bool :=
  scr_bus_width_four (scr_u64 c.scr.1 c.scr.2)

/-- `SdMmc::card` (`src/sdmmc.rs` lines 531–533): the guarded accessor for
the host driver's card slot. -/
def card (slot : Option SdCard) : Except Error SdCard :=
  match slot with
  | none => .error .NoCard
  | some c => .ok c

/-- Status bits read by the data-path drain loops: the fields consumed by
the `try_datapath!` macro (`src/sdmmc.rs` lines 151–165) plus `dbckend`,
`rxdavl` (SCR drain) and `rxfifohf` (SD-status drain). -/
structure DataSta where
  rxoverr : Bool
  dcrcfail : Bool
  dtimeout : Bool
  dbckend : Bool
  rxdavl : Bool
  rxfifohf : Bool
deriving DecidableEq, Repr

/-- The hardware oracle: outcomes of the `k`-th `SdMmc::cmd` call, response
register contents after the `k`-th call, and the status/FIFO streams of the
SCR data-path drain (indexed by poll number and FIFO-read number). -/
structure Device where
  cmdRes : Nat → Except Error Unit
  resp1 : Nat → Nat
  resp2 : Nat → Nat
  resp3 : Nat → Nat
  resp4 : Nat → Nat
  dataSta : Nat → DataSta
  fifo : Nat → Nat

/-- The branch of `SdMmc::select_card` (`src/sdmmc.rs` lines 536–540) that
maps the outcome of the `select_card(rca)` command and the RCA to the
returned result: `match (r, rca) { (Err(Timeout), 0) => Ok(()), (r, _) => r }`. -/
def select_card_result (r : Except Error Unit) (rca : Nat) : Except Error Unit :=
  match r, rca with
  | .error .Timeout, 0 => .ok ()
  | r, _ => r

/-- `SdMmc::select_card` (`src/sdmmc.rs` lines 535–541): issue the
`select_card(rca)` command (one `cmd` call) and post-process its outcome.
Returns the result together with the next command-call index. -/
def select_card (dev : Device) (rca k : Nat) : Except Error Unit × Nat :=
  (select_card_result (dev.cmdRes k) rca, k + 1)

/-- The bus-width computation of `SdMmc::set_bus` (`src/sdmmc.rs` lines
392–395): `match bus_width { Eight | Four if card_widebus => Four, _ => One }`. -/
def negotiated_width (bus_width : BusWidth) (card_widebus : Bool) : BusWidth :=
  match bus_width, card_widebus with
  | .Eight, true => .Four
  | .Four, true => .Four
  | _, _ => .One

/-- The spec's description of the bus-width computation, for comparison with
`negotiated_width`: the minimum of the host-wired width and the
card-advertised width (`Four` when the SCR advertises 4-bit support, else
`One`), restricted to `{One, Four}`. -/
def spec_min_width (bus_width : BusWidth) (card_widebus : Bool) : BusWidth :=
  let rank : BusWidth → Nat := fun w =>
    match w with
    | .One => 1
    | .Four => 4
    | .Eight => 8
  let card_width : BusWidth := if card_widebus then .Four else .One
  if rank bus_width ≤ rank card_width then bus_width else card_width

/-- Status bits read by the command-issue polling loop of `SdMmc::cmd`
(`src/sdmmc.rs` lines 577–606). -/
structure CmdSta where
  cmdact : Bool
  ctimeout : Bool
  ccrcfail : Bool
  cmdsent : Bool
  cmdrend : Bool
deriving DecidableEq, Repr

/-- The timeout bound of `SdMmc::cmd` (`src/sdmmc.rs` line 576):
`5000 * (self.clock.raw() / 8 / 1000)`.  For every `u32` clock this stays
below `2^32`, so plain `Nat` arithmetic coincides with the `u32` source. -/
def cmd_timeout (clock : Nat) : Nat := 5000 * (clock / 8 / 1000)

/-- The `for _ in 0..timeout` polling loop of `SdMmc::cmd` (`src/sdmmc.rs`
lines 577–608), for a status stream `sta` (the `j`-th iteration reads
`sta j`): an iteration with `cmdact` set just spins; otherwise the terminal
flags are classified according to whether the command expects a response
(`respZero = true` for `ResponseLen::Zero`); falling through all `fuel`
iterations yields `SoftwareTimeout`. -/
def cmd_poll_loop (respZero : Bool) (sta : Nat → CmdSta) :
    Nat → Nat → Except Error Unit
  | 0, _ => .error .SoftwareTimeout
  | fuel + 1, j =>
    let s := sta j
    if s.cmdact then cmd_poll_loop respZero sta fuel (j + 1)
    else if respZero then
      if s.ctimeout then .error .Timeout
      else if s.cmdsent then .ok ()
      else cmd_poll_loop respZero sta fuel (j + 1)
    else
      if s.ctimeout then .error .Timeout
      else if s.ccrcfail then .error .Crc
      else if s.cmdrend then .ok ()
      else cmd_poll_loop respZero sta fuel (j + 1)

/-- The polling phase of `SdMmc::cmd`: run the loop for exactly
`cmd_timeout clock` iterations starting at poll 0. -/
def cmd_engine (respZero : Bool) (sta : Nat → CmdSta) (clock : Nat) :
    Except Error Unit :=
  cmd_poll_loop respZero sta (cmd_timeout clock) 0

/-- A status word on which an iteration of the `SdMmc::cmd` polling loop
does not return: the command is still active, or no terminal flag for the
expected response length is set. -/
def sta_nonterminal (respZero : Bool) (s : CmdSta) : Bool :=
  s.cmdact
    || (if respZero then !s.ctimeout && !s.cmdsent
        else !s.ctimeout && !s.ccrcfail && !s.cmdrend)

/-- `SdMmc::app_cmd` (`src/sdmmc.rs` lines 543–547) as seen by the command
oracle: issue the `app_cmd(rca)` prefix as call `k`; if it fails its error
propagates (the wrapped command is never issued), otherwise issue the
wrapped command as call `k + 1`.  The RCA argument (current card address, 0
when no card is recorded) does not influence the oracle-indexed outcome, so
it is not a parameter.  Returns the result and the next call index. -/
def app_cmd_at (dev : Device) (k : Nat) : Except Error Unit × Nat :=
  match dev.cmdRes k with
  | .error e => (.error e, k + 1)
  | .ok _ => (dev.cmdRes (k + 1), k + 2)

/-- The voltage-negotiation loop of `SdMmc::init` (`src/sdmmc.rs` lines
323–347): up to `fuel` iterations (the source initialises `timeout = 0xffff`
and gives up with `SoftwareTimeout` when it reaches 0 before issuing), each
iteration runs `app_cmd(sd_send_op_cond(high_capacity, …))`, swallows a
`Crc` outcome, aborts on any other error, then reads the OCR from `resp1`
(the response register as left by the last issued command) and exits with it
once its busy bit is clear.  `_hc` renders the `high_capacity` flag of the
issued command; the oracle model indexes outcomes by call position, so it
does not influence control flow.  Returns the OCR word and the next call
index. -/
def op_cond_loop (dev : Device) (_hc : Bool) : Nat → Nat → Except Error (Nat × Nat)
  | 0, _ => .error .SoftwareTimeout
  | fuel + 1, k =>
    match app_cmd_at dev k with
    | (.ok _, kn) =>
      if ocr_is_busy (dev.resp1 (kn - 1)) then op_cond_loop dev _hc fuel kn
      else .ok (dev.resp1 (kn - 1), kn)
    | (.error .Crc, kn) =>
      if ocr_is_busy (dev.resp1 (kn - 1)) then op_cond_loop dev _hc fuel kn
      else .ok (dev.resp1 (kn - 1), kn)
    | (.error e, _) => .error e

/-- One cell update of the two-word SCR buffer: `scr[p] = v`. -/
def set_scr_word (p v : Nat) (scr : Nat × Nat) : Nat × Nat :=
  match p with
  | 0 => (v, scr.2)
  | _ => (scr.1, v)

/-- The labelled drain loop of `SdMmc::get_scr` (`src/sdmmc.rs` lines
454–471): `for n in scr.iter_mut().rev()` visits the word positions in the
order `[1, 0]`; each inner poll reads the `j`-th data status; the
`try_datapath!` error flags abort, `dbckend` breaks out of both loops with
the buffer as is, and `rxdavl` stores the next FIFO word byte-swapped at the
current position and advances the outer iterator.  `fuel` bounds the
unbounded inner polling; `none` means the loop was still polling. -/
def scr_drain (dev : Device) :
    Nat → Nat → Nat → List Nat → Nat × Nat → Option (Except Error (Nat × Nat))
  | _, _, _, [], scr => some (.ok scr)
  | 0, _, _, _ :: _, _ => none
  | fuel + 1, j, w, p :: rest, scr =>
    let s := dev.dataSta j
    if s.rxoverr then some (.error .RxOverFlow)
    else if s.dcrcfail then some (.error .DataCrcFail)
    else if s.dtimeout then some (.error .Timeout)
    else if s.dbckend then some (.ok scr)
    else if s.rxdavl then
      scr_drain dev fuel (j + 1) (w + 1) rest
        (set_scr_word p (swap_bytes (dev.fifo w)) scr)
    else scr_drain dev fuel (j + 1) w (p :: rest) scr

/-- `SdMmc::get_scr` (`src/sdmmc.rs` lines 448–474) over the oracle:
`set_block_length(8)` as call `k`, the `app_cmd(rca)` prefix as call
`k + 1`, `send_scr` as call `k + 2` (each `?`-propagating its error), then
the drain loop starting from the zeroed two-word buffer.
`start_datapath_transfer` only writes data-path registers and waits for the
engines to go idle, so it contributes nothing to the oracle-visible result.
Returns the assembled `[u32; 2]` SCR and the next call index. -/
def get_scr (dev : Device) (fuel k : Nat) :
    Option (Except Error ((Nat × Nat) × Nat)) :=
  match dev.cmdRes k with
  | .error e => some (.error e)
  | .ok _ =>
    match dev.cmdRes (k + 1) with
    | .error e => some (.error e)
    | .ok _ =>
      match dev.cmdRes (k + 2) with
      | .error e => some (.error e)
      | .ok _ =>
        match scr_drain dev fuel 0 0 [1, 0] (0, 0) with
        | none => none
        | some (.error e) => some (.error e)
        | some (.ok scr) => some (.ok (scr, k + 3))

/-- Host-controller registers the driver writes to, for tracking the
write-free guarantee of guarded operations. -/
inductive Reg where
  | icr
  | arg
  | cmdReg
  | dtimer
  | dlen
  | dctrl
  | clkcr
  | power
deriving DecidableEq, Repr

/-- Register writes performed by one `SdMmc::cmd` call before it starts
polling (`src/sdmmc.rs` lines 552–574): clear all interrupts, write the
argument register, write the command register. -/
def cmd_writes : List Reg := [.icr, .arg, .cmdReg]

/-- Register writes of `start_datapath_transfer` (`src/sdmmc.rs` lines
410–446): data timer, data length, data control. -/
def datapath_writes : List Reg := [.dtimer, .dlen, .dctrl]

/-- The eight-word FIFO burst of the SD-status drain (`src/sdmmc.rs` lines
518–524): `for j in 0..8 { sd_status[15 - i*8 - j] = fifo.swap_bytes() }`,
with `r` words left to read in this burst (`j = 8 - r`) and `w` the FIFO
index of the burst's first word. -/
def sd_burst (dev : Device) (i w : Nat) : Nat → (Nat → Nat) → Nat → Nat
  | 0, buf => buf
  | r + 1, buf =>
    let j := 8 - (r + 1)
    sd_burst dev i w r
      (Function.update buf (15 - i * 8 - j) (swap_bytes (dev.fifo (w + j))))

/-- The labelled drain loop of `SdMmc::read_sd_status` (`src/sdmmc.rs`
lines 508–526): two outer iterations (`i` counts them); each inner poll
aborts on the `try_datapath!` error flags, breaks out of both loops on
`dbckend`, and on `rxfifohf` reads an eight-word burst and advances the
outer iteration.  `fuel` bounds the unbounded inner polling. -/
def sd_status_drain (dev : Device) :
    Nat → Nat → Nat → Nat → (Nat → Nat) → Option (Except Error (Nat → Nat))
  | _, _, _, 2, buf => some (.ok buf)
  | 0, _, _, _, _ => none
  | fuel + 1, j, w, i, buf =>
    let s := dev.dataSta j
    if s.rxoverr then some (.error .RxOverFlow)
    else if s.dcrcfail then some (.error .DataCrcFail)
    else if s.dtimeout then some (.error .Timeout)
    else if s.dbckend then some (.ok buf)
    else if s.rxfifohf then
      sd_status_drain dev fuel (j + 1) (w + 8) (i + 1) (sd_burst dev i w 8 buf)
    else sd_status_drain dev fuel (j + 1) w i buf

/-- `SdMmc::read_status` (`src/sdmmc.rs` lines 485–492): the card-status
read.  The guarded card accessor runs first; with no card recorded it
returns `NoCard` before any hardware access.  Otherwise `card_status(rca)`
is issued as call `k` and the status word is read from `resp1`.  The second
component lists every host-register write performed. -/
def read_status (slot : Option SdCard) (dev : Device) (k : Nat) :
    (Except Error Nat × Nat) × List Reg :=
  match card slot with
  | .error e => ((.error e, k), [])
  | .ok _ =>
    match dev.cmdRes k with
    | .error e => ((.error e, k + 1), cmd_writes)
    | .ok _ => ((.ok (dev.resp1 k), k + 1), cmd_writes)

/-- `SdMmc::read_sd_status` (`src/sdmmc.rs` lines 500–529): the guarded
card accessor runs first (`NoCard` before any hardware access when no card
is recorded); then `set_block_length(64)` as call `k`, the data-path setup,
`app_cmd` prefix and `sd_status` as calls `k + 1` and `k + 2`, then the
16-word drain from the zeroed buffer.  The second component lists every
host-register write performed up to the returned point. -/
def read_sd_status (slot : Option SdCard) (dev : Device) (fuel k : Nat) :
    Option (Except Error (Nat → Nat)) × List Reg :=
  match card slot with
  | .error e => (some (.error e), [])
  | .ok _ =>
    match dev.cmdRes k with
    | .error e => (some (.error e), cmd_writes)
    | .ok _ =>
      match dev.cmdRes (k + 1) with
      | .error e => (some (.error e), cmd_writes ++ datapath_writes ++ cmd_writes)
      | .ok _ =>
        match dev.cmdRes (k + 2) with
        | .error e =>
          (some (.error e),
            cmd_writes ++ datapath_writes ++ cmd_writes ++ cmd_writes)
        | .ok _ =>
          (sd_status_drain dev fuel 0 0 0 (fun _ => 0),
            cmd_writes ++ datapath_writes ++ cmd_writes ++ cmd_writes)

/-- The card-version classification of `SdMmc::init` (`src/sdmmc.rs` lines
312–316): protocol version 2 when the echoed check pattern is `0xAA`,
version 1 otherwise. -/
def card_version (cic : Nat) : SdCardVersion :=
  if cic_pattern cic = 0xAA then .V2 else .V1

/-- The card-ready polling of `SdMmc::init` (`src/sdmmc.rs` line 382,
`while !self.card_ready()? {}`, with `card_ready`/`read_status`, lines
485–497): each iteration issues `card_status(rca)` as one call and reads the
status word from `resp1`; errors propagate out of the loop; the loop exits
once the current-state field reports `Transfer` (4).  At this point of
`init` a card is recorded, so `read_status`'s card guard always passes.
`fuel` bounds the unbounded while-loop; returns the next call index. -/
def wait_ready (dev : Device) : Nat → Nat → Option (Except Error Nat)
  | 0, _ => none
  | fuel + 1, k =>
    match dev.cmdRes k with
    | .error e => some (.error e)
    | .ok _ =>
      if card_state (dev.resp1 k) = 4 then some (.ok (k + 1))
      else wait_ready dev fuel (k + 1)

/-- `SdMmc::set_bus` (`src/sdmmc.rs` lines 389–408): the guarded card
accessor runs first; the negotiated width is computed from the host wiring
and the card's SCR; then `app_cmd(set_bus_width(width == Four))` is issued
(two calls through the prefix).  The final `clkcr` reprogramming is a
register write with no oracle-visible outcome.  Returns the next call
index. -/
def set_bus (dev : Device) (slot : Option SdCard) (bus_width : BusWidth)
    (k : Nat) : Except Error Nat :=
  match card slot with
  | .error e => .error e
  | .ok c =>
    let _w := negotiated_width bus_width c.supports_widebus
    match app_cmd_at dev k with
    | (.error e, _) => .error e
    | (.ok _, kn) => .ok kn

/-- The descriptor-acquisition phase of `SdMmc::init` (`src/sdmmc.rs` lines
300–376): `idle` (call 0), `send_if_cond` (call 1) and the version
classification from its echoed pattern, the voltage-negotiation loop with
budget `0xffff` starting at call 2, then `all_send_cid`,
`send_relative_address`, `send_csd`, `select_card` and `get_scr`, each
`?`-propagating its first error.  Successful completion returns the fully
assembled card record (the value stored into `self.card` at line 379) and
the next call index. -/
def init_acquire (dev : Device) (drainFuel : Nat) :
    Option (Except Error (SdCard × Nat)) :=
  match dev.cmdRes 0 with
  | .error e => some (.error e)
  | .ok _ =>
    match dev.cmdRes 1 with
    | .error e => some (.error e)
    | .ok _ =>
      let ver := card_version (dev.resp1 1)
      let high_capacity := decide (ver = SdCardVersion.V2)
      match op_cond_loop dev high_capacity 0xffff 2 with
      | .error e => some (.error e)
      | .ok (ocr, k) =>
        match dev.cmdRes k with
        | .error e => some (.error e)
        | .ok _ =>
          let cid := (dev.resp1 k, dev.resp2 k, dev.resp3 k, dev.resp4 k)
          match dev.cmdRes (k + 1) with
          | .error e => some (.error e)
          | .ok _ =>
            let rcaWord := dev.resp1 (k + 1)
            match dev.cmdRes (k + 2) with
            | .error e => some (.error e)
            | .ok _ =>
              let csd := (dev.resp1 (k + 2), dev.resp2 (k + 2),
                dev.resp3 (k + 2), dev.resp4 (k + 2))
              match select_card_result (dev.cmdRes (k + 3))
                  (rca_address rcaWord) with
              | .error e => some (.error e)
              | .ok _ =>
                match get_scr dev drainFuel (k + 4) with
                | none => none
                | some (.error e) => some (.error e)
                | some (.ok (scr, kn)) =>
                  some (.ok (⟨ocr_high_capacity ocr, ocr, cid, rcaWord, csd,
                    scr⟩, kn))

/-- `SdMmc::init` (`src/sdmmc.rs` lines 300–387): run the acquisition
phase; only on its success is the card record installed into the host's
card slot (line 379); afterwards the card-ready poll and `set_bus` run with
the card recorded, so their failures leave it recorded.  `slot` is the card
slot before the call; the result pairs `init`'s returned outcome with the
slot after the call. -/
def init (dev : Device) (bus_width : BusWidth) (slot : Option SdCard)
    (drainFuel readyFuel : Nat) : Option (Except Error Unit × Option SdCard) :=
  match init_acquire dev drainFuel with
  | none => none
  | some (.error e) => some (.error e, slot)
  | some (.ok (c, k)) =>
    match wait_ready dev readyFuel k with
    | none => none
    | some (.error e) => some (.error e, some c)
    | some (.ok kn) =>
      match set_bus dev (some c) bus_width kn with
      | .error e => some (.error e, some c)
      | .ok _ => some (.ok (), some c)

end Sd

namespace Pwr

/-- `Pwr::read_wakeup_reason` (`src/pwr.rs` lines 180–182):
`WakeUpSource(self.sr1.reg().read().bits() as u16)` — the PWR SR1 word
truncated to 16 bits and wrapped in the `WakeUpSource` bitfield. -/
def read_wakeup_reason (sr1 : Nat) : Nat := sr1 % 65536

/-- `WakeUpSource::wkup1` (`src/pwr.rs` line 31): bit 0 of the bitfield. -/
def wkup1 (w : Nat) : Bool := decide (w % 2 = 1)

/-- `WakeUpSource::wkup2` (`src/pwr.rs` line 32): bit 1 of the bitfield. -/
def wkup2 (w : Nat) : Bool := decide (w / 2 % 2 = 1)

/-- `WakeUpSource::wkup3` (`src/pwr.rs` line 33): bit 2 of the bitfield. -/
def wkup3 (w : Nat) : Bool := decide (w / 4 % 2 = 1)

/-- `WakeUpSource::wkup4` (`src/pwr.rs` line 34): bit 3 of the bitfield. -/
def wkup4 (w : Nat) : Bool := decide (w / 8 % 2 = 1)

/-- `WakeUpSource::wkup5` (`src/pwr.rs` line 35): bit 4 of the bitfield. -/
def wkup5 (w : Nat) : Bool := decide (w / 16 % 2 = 1)

/-- `WakeUpSource::internal_wkup` (`src/pwr.rs` line 36): bit 15 of the
bitfield. -/
def internal_wkup (w : Nat) : Bool := decide (w / 32768 % 2 = 1)

end Pwr

/-- Oracle for the C2 witness: every command succeeds; the OCR read of the
first poll (`resp1 1`) is busy, the one of the second poll (`resp1 3`) has
the power-up-complete bit set. -/
def c2dev : Sd.Device where
  cmdRes := fun _ => .ok ()
  resp1 := fun k => if k = 3 then 2 ^ 31 else 0
  resp2 := fun _ => 0
  resp3 := fun _ => 0
  resp4 := fun _ => 0
  dataSta := fun _ => ⟨false, false, false, false, false, false⟩
  fifo := fun _ => 0

/-- Oracle for the C2 witness, busy-forever variant: every command succeeds
and the OCR busy bit never clears. -/
def c2devBusy : Sd.Device where
  cmdRes := fun _ => .ok ()
  resp1 := fun _ => 0
  resp2 := fun _ => 0
  resp3 := fun _ => 0
  resp4 := fun _ => 0
  dataSta := fun _ => ⟨false, false, false, false, false, false⟩
  fifo := fun _ => 0

/-- Oracle for the C3 witness: the ACMD41 of the first poll (call 1) answers
with a CRC failure, everything else succeeds; the OCR read after the failed
poll is busy and the one after the successful second poll (`resp1 3`) is
powered up. -/
def c3dev : Sd.Device where
  cmdRes := fun k => if k = 1 then .error .Crc else .ok ()
  resp1 := fun k => if k = 3 then 2 ^ 31 else 0
  resp2 := fun _ => 0
  resp3 := fun _ => 0
  resp4 := fun _ => 0
  dataSta := fun _ => ⟨false, false, false, false, false, false⟩
  fifo := fun _ => 0

/-- Oracle for the C3 witness, fatal variant: the ACMD41 of the first poll
answers with a hardware timeout. -/
def c3devFatal : Sd.Device where
  cmdRes := fun k => if k = 1 then .error .Timeout else .ok ()
  resp1 := fun _ => 0
  resp2 := fun _ => 0
  resp3 := fun _ => 0
  resp4 := fun _ => 0
  dataSta := fun _ => ⟨false, false, false, false, false, false⟩
  fifo := fun _ => 0

/-- Oracle for C5: every command succeeds; the data-path status always
reports a FIFO word available; the FIFO yields 0xAABBCCDD then 0x11223344. -/
def c5dev : Sd.Device where
  cmdRes := fun _ => .ok ()
  resp1 := fun _ => 0
  resp2 := fun _ => 0
  resp3 := fun _ => 0
  resp4 := fun _ => 0
  dataSta := fun _ => ⟨false, false, false, false, true, false⟩
  fifo := fun w => if w = 0 then 0xAABBCCDD else 0x11223344

/-- Oracle for the C1 counterexample: every step of the acquisition phase
succeeds (OCR powered up at the first poll, SCR drain ends at once via
`dbckend`, card status reports `Transfer`), but call 12 — the `app_cmd`
prefix of `set_bus`'s `set_bus_width`, issued after the card record is
installed — fails with a hardware timeout. -/
def c1dev : Sd.Device where
  cmdRes := fun k => if k = 12 then .error .Timeout else .ok ()
  resp1 := fun k => if k = 3 then 2 ^ 31 else if k = 11 then 2048 else 0
  resp2 := fun _ => 0
  resp3 := fun _ => 0
  resp4 := fun _ => 0
  dataSta := fun _ => ⟨false, false, false, true, false, false⟩
  fifo := fun _ => 0

/-- The card record acquired in the C1 counterexample run. -/
def c1card : Sd.SdCard :=
  ⟨false, 2 ^ 31, (0, 0, 0, 0), 0, (0, 0, 0, 0), (0, 0)⟩

/-- Oracle for the C1 witness: the very first command of the sequence (the
go-idle) fails with a hardware timeout. -/
def c1devEarly : Sd.Device where
  cmdRes := fun _ => .error .Timeout
  resp1 := fun _ => 0
  resp2 := fun _ => 0
  resp3 := fun _ => 0
  resp4 := fun _ => 0
  dataSta := fun _ => ⟨false, false, false, false, false, false⟩
  fifo := fun _ => 0

/-- Oracle for C7: the go-idle succeeds and the interface-condition check
command (call 1) gets no answer — a hardware timeout. -/
def c7dev : Sd.Device where
  cmdRes := fun k => if k = 1 then .error .Timeout else .ok ()
  resp1 := fun _ => 0
  resp2 := fun _ => 0
  resp3 := fun _ => 0
  resp4 := fun _ => 0
  dataSta := fun _ => ⟨false, false, false, false, false, false⟩
  fifo := fun _ => 0

namespace Sd

theorem cmd_poll_loop_nonterminal (respZero : Bool) (sta : Nat → CmdSta) :
    ∀ fuel j, (∀ i, i < fuel → sta_nonterminal respZero (sta (j + i)) = true) →
      cmd_poll_loop respZero sta fuel j = .error .SoftwareTimeout := by
  intro fuel
  induction fuel with
  | zero => intro j _; rfl
  | succ n ih =>
    intro j h
    have h0 := h 0 (Nat.succ_pos n)
    simp only [Nat.add_zero] at h0
    have hrec : cmd_poll_loop respZero sta n (j + 1) = .error .SoftwareTimeout := by
      apply ih
      intro i hi
      have := h (i + 1) (Nat.succ_lt_succ hi)
      simpa [Nat.add_assoc, Nat.add_comm 1 i] using this
    unfold cmd_poll_loop
    simp only [sta_nonterminal, Bool.or_eq_true, Bool.and_eq_true,
      Bool.not_eq_true'] at h0
    rcases h0 with hact | hterm
    · simp [hact, hrec]
    · cases hca : (sta j).cmdact with
      | true => simp [hca, hrec]
      | false =>
        cases respZero with
        | true =>
          simp only [if_true] at hterm
          rcases Bool.and_eq_true _ _ |>.mp hterm with ⟨ht, hs⟩
          simp only [Bool.not_eq_true'] at ht hs
          simp [hca, ht, hs, hrec]
        | false =>
          rw [if_neg (by decide : ¬ (false = true))] at hterm
          rcases Bool.and_eq_true _ _ |>.mp hterm with ⟨htc, hr⟩
          rcases Bool.and_eq_true _ _ |>.mp htc with ⟨ht, hc⟩
          simp only [Bool.not_eq_true'] at ht hc hr
          simp [hca, ht, hc, hr, hrec]

theorem cmd_poll_loop_success (respZero : Bool) (sta : Nat → CmdSta) :
    ∀ d fuel j, d < fuel →
      (∀ i, i < d → sta_nonterminal respZero (sta (j + i)) = true) →
      (sta (j + d)).cmdact = false →
      (sta (j + d)).ctimeout = false →
      (sta (j + d)).ccrcfail = false →
      (sta (j + d)).cmdsent = true →
      (sta (j + d)).cmdrend = true →
      cmd_poll_loop respZero sta fuel j = .ok () := by
  intro d
  induction d with
  | zero =>
    intro fuel j hfuel _ hact htime hcrc hsent hrend
    cases fuel with
    | zero => exact absurd hfuel (Nat.lt_irrefl 0)
    | succ n =>
      simp only [Nat.add_zero] at hact htime hcrc hsent hrend
      unfold cmd_poll_loop
      cases respZero <;> simp [hact, htime, hcrc, hsent, hrend]
  | succ m ih =>
    intro fuel j hfuel h hact htime hcrc hsent hrend
    cases fuel with
    | zero => exact absurd hfuel (Nat.not_lt_zero _)
    | succ n =>
      have h0 := h 0 (Nat.succ_pos m)
      simp only [Nat.add_zero] at h0
      have hsh : j + 1 + m = j + (m + 1) := by omega
      have hrec : cmd_poll_loop respZero sta n (j + 1) = .ok () := by
        apply ih n (j + 1) (Nat.lt_of_succ_lt_succ hfuel)
        · intro i hi
          have := h (i + 1) (Nat.succ_lt_succ hi)
          simpa [Nat.add_assoc, Nat.add_comm 1 i] using this
        · rw [hsh]; exact hact
        · rw [hsh]; exact htime
        · rw [hsh]; exact hcrc
        · rw [hsh]; exact hsent
        · rw [hsh]; exact hrend
      unfold cmd_poll_loop
      simp only [sta_nonterminal, Bool.or_eq_true, Bool.and_eq_true,
        Bool.not_eq_true'] at h0
      rcases h0 with hca | hterm
      · simp [hca, hrec]
      · cases hca : (sta j).cmdact with
        | true => simp [hca, hrec]
        | false =>
          cases respZero with
          | true =>
            simp only [if_true] at hterm
            rcases Bool.and_eq_true _ _ |>.mp hterm with ⟨ht, hs⟩
            simp only [Bool.not_eq_true'] at ht hs
            simp [hca, ht, hs, hrec]
          | false =>
            rw [if_neg (by decide : ¬ (false = true))] at hterm
            rcases Bool.and_eq_true _ _ |>.mp hterm with ⟨htc, hr⟩
            rcases Bool.and_eq_true _ _ |>.mp htc with ⟨ht, hc⟩
            simp only [Bool.not_eq_true'] at ht hc hr
            simp [hca, ht, hc, hr, hrec]

theorem op_cond_loop_busy_run (dev : Device) (hc : Bool) :
    ∀ N s,
      (∀ i, i ≤ N → dev.cmdRes (s + 2 * i) = .ok ()
          ∧ dev.cmdRes (s + 2 * i + 1) = .ok ()) →
      (∀ i, i < N → ocr_is_busy (dev.resp1 (s + 2 * i + 1)) = true) →
      ocr_is_busy (dev.resp1 (s + 2 * N + 1)) = false →
      ∀ fuel, N < fuel →
        op_cond_loop dev hc fuel s
          = .ok (dev.resp1 (s + 2 * N + 1), s + 2 * (N + 1)) := by
  intro N
  induction N with
  | zero =>
    intro s h _ hclear fuel hfuel
    cases fuel with
    | zero => exact absurd hfuel (Nat.not_lt_zero _)
    | succ f =>
      obtain ⟨h1, h2⟩ := h 0 (Nat.le_refl 0)
      rw [Nat.mul_zero, Nat.add_zero] at h1 h2 hclear ⊢
      unfold op_cond_loop
      simp [app_cmd_at, h1, h2, hclear]
  | succ M ih =>
    intro s h hb hclear fuel hfuel
    cases fuel with
    | zero => exact absurd hfuel (Nat.not_lt_zero _)
    | succ f =>
      obtain ⟨h1, h2⟩ := h 0 (Nat.zero_le _)
      rw [Nat.mul_zero, Nat.add_zero] at h1 h2
      have hb0 := hb 0 (Nat.succ_pos M)
      rw [Nat.mul_zero, Nat.add_zero] at hb0
      have hrec := ih (s + 2)
        (fun i hi => by
          have := h (i + 1) (Nat.succ_le_succ hi)
          constructor
          · rw [show s + 2 + 2 * i = s + 2 * (i + 1) from by omega]
            exact this.1
          · rw [show s + 2 + 2 * i + 1 = s + 2 * (i + 1) + 1 from by omega]
            exact this.2)
        (fun i hi => by
          have := hb (i + 1) (Nat.succ_lt_succ hi)
          rw [show s + 2 + 2 * i + 1 = s + 2 * (i + 1) + 1 from by omega]
          exact this)
        (by
          rw [show s + 2 + 2 * M + 1 = s + 2 * (M + 1) + 1 from by omega]
          exact hclear)
        f (Nat.lt_of_succ_lt_succ hfuel)
      unfold op_cond_loop
      simp [app_cmd_at, h1, h2, hb0]
      rw [hrec]
      rw [show s + 2 + 2 * M + 1 = s + 2 * (M + 1) + 1 from by omega,
        show s + 2 + 2 * (M + 1) = s + 2 * (M + 1 + 1) from by omega]

theorem op_cond_loop_busy_prefix_timeout (dev : Device) (hc : Bool) :
    ∀ N s,
      (∀ i, i < N → dev.cmdRes (s + 2 * i) = .ok ()
          ∧ dev.cmdRes (s + 2 * i + 1) = .ok ()) →
      (∀ i, i < N → ocr_is_busy (dev.resp1 (s + 2 * i + 1)) = true) →
      op_cond_loop dev hc N s = .error .SoftwareTimeout := by
  intro N
  induction N with
  | zero => intro s _ _; rfl
  | succ M ih =>
    intro s h hb
    obtain ⟨h1, h2⟩ := h 0 (Nat.succ_pos M)
    rw [Nat.mul_zero, Nat.add_zero] at h1 h2
    have hb0 := hb 0 (Nat.succ_pos M)
    rw [Nat.mul_zero, Nat.add_zero] at hb0
    have hrec := ih (s + 2)
      (fun i hi => by
        have := h (i + 1) (Nat.succ_lt_succ hi)
        constructor
        · rw [show s + 2 + 2 * i = s + 2 * (i + 1) from by omega]
          exact this.1
        · rw [show s + 2 + 2 * i + 1 = s + 2 * (i + 1) + 1 from by omega]
          exact this.2)
      (fun i hi => by
        have := hb (i + 1) (Nat.succ_lt_succ hi)
        rw [show s + 2 + 2 * i + 1 = s + 2 * (i + 1) + 1 from by omega]
        exact this)
    unfold op_cond_loop
    simp [app_cmd_at, h1, h2, hb0, hrec]

theorem op_cond_loop_always_busy (dev : Device) (hc : Bool)
    (hok : ∀ k, dev.cmdRes k = .ok ())
    (hb : ∀ k, ocr_is_busy (dev.resp1 k) = true) :
    ∀ fuel s, op_cond_loop dev hc fuel s = .error .SoftwareTimeout := by
  intro fuel
  induction fuel with
  | zero => intro s; rfl
  | succ f ih =>
    intro s
    unfold op_cond_loop
    simp [app_cmd_at, hok, hb, ih]

end Sd

/-- Counterexample to claim C1: a run in which every acquisition step
succeeds but bus reconfiguration fails afterwards — `init` returns the
`Timeout` error, yet the card slot is *not* in the no-card state: the
acquired card record remains installed. -/
theorem c1_counterexample_late_failure :
    Sd.init c1dev .Four none 1 1 = some (.error .Timeout, some c1card)
    ∧ some c1card ≠ (none : Option Sd.SdCard) := by
  exact ⟨rfl, by simp⟩

/-- Claim C1 (amended): a failure in any step of `init` up through
descriptor acquisition (idle, interface check, voltage negotiation, CID,
RCA, CSD, card selection, SCR read) aborts the sequence with that error and
leaves the no-card slot unchanged, with `card()` still reporting `NoCard`
and no partially-assembled record committed; a failure in the steps that
run after the record is installed (the card-ready poll or bus
reconfiguration) returns the error but leaves the acquired card recorded. -/
theorem c1_no_partial_commit :
    (∀ (dev : Sd.Device) (bw : Sd.BusWidth) (df rf : Nat) (e : Sd.Error),
      Sd.init_acquire dev df = some (.error e) →
      Sd.init dev bw none df rf = some (.error e, none)
        ∧ Sd.card none = .error .NoCard)
    ∧ (∀ (dev : Sd.Device) (bw : Sd.BusWidth) (df rf : Nat) (e : Sd.Error)
        (c : Sd.SdCard) (k : Nat),
      Sd.init_acquire dev df = some (.ok (c, k)) →
      Sd.wait_ready dev rf k = some (.error e) →
      Sd.init dev bw none df rf = some (.error e, some c))
    ∧ (∀ (dev : Sd.Device) (bw : Sd.BusWidth) (df rf : Nat) (e : Sd.Error)
        (c : Sd.SdCard) (k kn : Nat),
      Sd.init_acquire dev df = some (.ok (c, k)) →
      Sd.wait_ready dev rf k = some (.ok kn) →
      Sd.set_bus dev (some c) bw kn = .error e →
      Sd.init dev bw none df rf = some (.error e, some c)) := by
  refine ⟨?_, ?_, ?_⟩
  · intro dev bw df rf e h
    exact ⟨by simp [Sd.init, h], rfl⟩
  · intro dev bw df rf e c k h1 h2
    simp [Sd.init, h1, h2]
  · intro dev bw df rf e c k kn h1 h2 h3
    simp [Sd.init, h1, h2, h3]

/-- Witness for C1 (amended): an acquisition-phase failure leaves the
no-card state and `card()` reports `NoCard`. -/
theorem c1_no_partial_commit_witness :
    Sd.init c1devEarly .Four none 1 1 = some (.error .Timeout, none)
    ∧ Sd.card none = .error .NoCard :=
  c1_no_partial_commit.1 c1devEarly .Four 1 1 .Timeout rfl

/-- Claim C2: in the voltage-negotiation loop of `init` (oracle call index
`s`, each poll issuing the `app_cmd` prefix and `sd_send_op_cond`), if every
command succeeds, the OCR reads report busy for the first `N` polls and
not-busy on poll `N + 1`, and `N < 65535`, then the loop with its source
budget 65535 succeeds, returning the poll-`N` OCR after exactly `N + 1`
polls (the returned call index `s + 2 * (N + 1)` counts two calls per poll,
a budget of `N + 1` also suffices, and a budget of `N` times out); if the
busy bit never clears, the budget-65535 loop fails with `SoftwareTimeout`. -/
theorem c2_voltage_polls :
    (∀ (dev : Sd.Device) (hc : Bool) (s N : Nat),
      (∀ i, i ≤ N → dev.cmdRes (s + 2 * i) = .ok ()
          ∧ dev.cmdRes (s + 2 * i + 1) = .ok ()) →
      (∀ i, i < N → Sd.ocr_is_busy (dev.resp1 (s + 2 * i + 1)) = true) →
      Sd.ocr_is_busy (dev.resp1 (s + 2 * N + 1)) = false →
      N < 65535 →
      Sd.op_cond_loop dev hc 65535 s
          = .ok (dev.resp1 (s + 2 * N + 1), s + 2 * (N + 1))
        ∧ Sd.op_cond_loop dev hc (N + 1) s
          = .ok (dev.resp1 (s + 2 * N + 1), s + 2 * (N + 1))
        ∧ Sd.op_cond_loop dev hc N s = .error .SoftwareTimeout)
    ∧ (∀ (dev : Sd.Device) (hc : Bool) (s : Nat),
      (∀ k, dev.cmdRes k = .ok ()) →
      (∀ k, Sd.ocr_is_busy (dev.resp1 k) = true) →
      Sd.op_cond_loop dev hc 65535 s = .error .SoftwareTimeout) := by
  constructor
  · intro dev hc s N h hb hclear hN
    refine ⟨Sd.op_cond_loop_busy_run dev hc N s h hb hclear 65535 hN,
      Sd.op_cond_loop_busy_run dev hc N s h hb hclear (N + 1) (Nat.lt_succ_self N),
      Sd.op_cond_loop_busy_prefix_timeout dev hc N s
        (fun i hi => h i (Nat.le_of_lt hi)) hb⟩
  · intro dev hc s hok hb
    exact Sd.op_cond_loop_always_busy dev hc hok hb 65535 s

/-- Witness for C2 at `N = 1`: busy on poll 0, clear on poll 1, success
after exactly 2 polls (4 oracle calls); and the busy-forever oracle times
out. -/
theorem c2_voltage_polls_witness :
    (Sd.op_cond_loop c2dev false 65535 0 = .ok (c2dev.resp1 3, 4)
      ∧ Sd.op_cond_loop c2dev false 2 0 = .ok (c2dev.resp1 3, 4)
      ∧ Sd.op_cond_loop c2dev false 1 0 = .error .SoftwareTimeout)
    ∧ Sd.op_cond_loop c2devBusy false 65535 0 = .error .SoftwareTimeout := by
  constructor
  · exact c2_voltage_polls.1 c2dev false 0 1
      (fun i _ => ⟨rfl, by
        match i with
        | 0 => rfl
        | 1 => rfl⟩)
      (by decide) (by decide) (by decide)
  · exact c2_voltage_polls.2 c2devBusy false 0 (fun k => rfl)
      (fun k => by simp [c2devBusy, Sd.ocr_is_busy])

/-- Claim C3: in the voltage-negotiation loop, a `Crc` outcome of the
operating-condition application command is swallowed and the loop retries —
in particular a CRC-failing poll followed by a successful not-busy poll
yields success, not an abort — while any non-`Crc` error from either the
`app_cmd` prefix or the wrapped command aborts the loop immediately with
that error. -/
theorem c3_crc_swallowed :
    (∀ (dev : Sd.Device) (hc : Bool) (s fuel : Nat),
      dev.cmdRes s = .ok () → dev.cmdRes (s + 1) = .error .Crc →
      Sd.ocr_is_busy (dev.resp1 (s + 1)) = true →
      dev.cmdRes (s + 2) = .ok () → dev.cmdRes (s + 3) = .ok () →
      Sd.ocr_is_busy (dev.resp1 (s + 3)) = false →
      Sd.op_cond_loop dev hc (fuel + 2) s = .ok (dev.resp1 (s + 3), s + 4))
    ∧ (∀ (dev : Sd.Device) (hc : Bool) (s fuel : Nat) (e : Sd.Error),
      dev.cmdRes s = .error e → e ≠ .Crc →
      Sd.op_cond_loop dev hc (fuel + 1) s = .error e)
    ∧ (∀ (dev : Sd.Device) (hc : Bool) (s fuel : Nat) (e : Sd.Error),
      dev.cmdRes s = .ok () → dev.cmdRes (s + 1) = .error e → e ≠ .Crc →
      Sd.op_cond_loop dev hc (fuel + 1) s = .error e) := by
  refine ⟨?_, ?_, ?_⟩
  · intro dev hc s fuel h0 h1 hb h2 h3 hclear
    unfold Sd.op_cond_loop
    simp only [Sd.app_cmd_at, h0, h1]
    rw [show s + 2 - 1 = s + 1 from by omega]
    rw [hb]
    unfold Sd.op_cond_loop
    simp only [Sd.app_cmd_at, h2, h3]
    rw [show s + 2 + 2 - 1 = s + 3 from by omega, hclear,
      show s + 2 + 2 = s + 4 from by omega]
    simp
  · intro dev hc s fuel e h hne
    unfold Sd.op_cond_loop
    cases e <;> first
      | exact absurd rfl hne
      | simp [Sd.app_cmd_at, h]
  · intro dev hc s fuel e h0 h1 hne
    unfold Sd.op_cond_loop
    cases e <;> first
      | exact absurd rfl hne
      | simp [Sd.app_cmd_at, h0, h1]

/-- Witness for C3: one CRC-failing poll followed by a successful not-busy
poll gives success with the source's remaining budget, and a `Timeout` from
the same command aborts with `Timeout`. -/
theorem c3_crc_swallowed_witness :
    Sd.op_cond_loop c3dev false 65535 0 = .ok (c3dev.resp1 3, 4)
    ∧ Sd.op_cond_loop c3devFatal false 65535 0 = .error .Timeout := by
  constructor
  · exact c3_crc_swallowed.1 c3dev false 0 65533 rfl rfl (by decide) rfl rfl
      (by decide)
  · exact c3_crc_swallowed.2.2 c3devFatal false 0 65534 .Timeout rfl rfl
      (by decide)

/-- Claim C4: `select_card` with RCA = 0 turns a hardware `Timeout` outcome
into success; with any RCA ≠ 0 the same outcome propagates as `Timeout`;
every other outcome is returned unchanged regardless of the RCA. -/
theorem c4_select_card_rca_zero_timeout :
    Sd.select_card_result (.error .Timeout) 0 = .ok ()
    ∧ (∀ rca : Nat, rca ≠ 0 →
        Sd.select_card_result (.error .Timeout) rca = .error .Timeout)
    ∧ (∀ (r : Except Sd.Error Unit) (rca : Nat), r ≠ .error .Timeout →
        Sd.select_card_result r rca = r) := by
  refine ⟨rfl, ?_, ?_⟩
  · intro rca h
    cases rca with
    | zero => exact absurd rfl h
    | succ n => rfl
  · intro r rca h
    cases r with
    | ok u => rfl
    | error e =>
      cases e <;> first
        | rfl
        | (cases rca with
            | zero => exact absurd rfl h
            | succ n => rfl)

/-- Witness for C4 at concrete inputs: RCA 5 propagates the timeout and a
success outcome is returned unchanged at RCA 0. -/
theorem c4_select_card_rca_zero_timeout_witness :
    Sd.select_card_result (.error .Timeout) 5 = .error .Timeout
    ∧ Sd.select_card_result (.ok ()) 0 = .ok () := by
  exact ⟨c4_select_card_rca_zero_timeout.2.1 5 (by decide),
    c4_select_card_rca_zero_timeout.2.2 (.ok ()) 0 (fun h => Except.noConfusion h)⟩

/-- Claim C5: the SCR drain byte-swaps each FIFO word and fills the
two-word descriptor in reverse order: with the FIFO yielding
`[0xAABBCCDD, 0x11223344]`, `get_scr` assembles the word array whose
low-index element is `0x11223344` byte-swapped (`0x44332211`) and whose
high-index element is `0xAABBCCDD` byte-swapped (`0xDDCCBBAA`). -/
theorem c5_scr_reverse_byteswap :
    Sd.get_scr c5dev 2 0
        = some (.ok ((Sd.swap_bytes 0x11223344, Sd.swap_bytes 0xAABBCCDD), 3))
    ∧ Sd.swap_bytes 0x11223344 = 0x44332211
    ∧ Sd.swap_bytes 0xAABBCCDD = 0xDDCCBBAA := by
  refine ⟨rfl, rfl, rfl⟩

/-- Claim C6: the `set_bus` width computation is the minimum of the
host-wired width and the card's SCR-advertised width restricted to
`{One, Four}`: 4-bit-capable card with host wired `Eight` or `Four` gives
`Four`; a card without 4-bit support gives `One` for every host wiring; the
result is never `Eight`. -/
theorem c6_negotiated_bus_width :
    (∀ (w : Sd.BusWidth) (b : Bool),
        Sd.negotiated_width w b = Sd.spec_min_width w b)
    ∧ Sd.negotiated_width .Eight true = .Four
    ∧ Sd.negotiated_width .Four true = .Four
    ∧ (∀ w : Sd.BusWidth, Sd.negotiated_width w false = .One)
    ∧ (∀ (w : Sd.BusWidth) (b : Bool), Sd.negotiated_width w b ≠ .Eight) := by
  refine ⟨?_, rfl, rfl, ?_, ?_⟩
  · intro w b
    cases w <;> cases b <;> rfl
  · intro w
    cases w <;> rfl
  · intro w b
    cases w <;> cases b <;> simp [Sd.negotiated_width]

/-- Counterexample to claim C7: the interface-condition check *can* hard-fail
the sequence — when the card does not answer the check command (hardware
`Timeout`), `init` aborts with that error instead of downgrading the version
classification to V1 and continuing. -/
theorem c7_counterexample_check_aborts :
    Sd.init c7dev .Four none 1 1 = some (.error .Timeout, none) := rfl

/-- Claim C7 (amended): when the interface-condition command itself
succeeds, the classification never fails `init`: an echoed pattern of
`0xAA` classifies the card as protocol version 2 and any other echoed
pattern classifies it as version 1; but a failure of the check command
itself (e.g. the card not answering, a hardware timeout) aborts `init`
with that error. -/
theorem c7_version_classification :
    (∀ cic : Nat, Sd.cic_pattern cic = 0xAA → Sd.card_version cic = .V2)
    ∧ (∀ cic : Nat, Sd.cic_pattern cic ≠ 0xAA → Sd.card_version cic = .V1)
    ∧ (∀ (dev : Sd.Device) (bw : Sd.BusWidth) (df rf : Nat) (e : Sd.Error),
      dev.cmdRes 0 = .ok () → dev.cmdRes 1 = .error e →
      Sd.init dev bw none df rf = some (.error e, none)) := by
  refine ⟨?_, ?_, ?_⟩
  · intro cic h
    simp [Sd.card_version, h]
  · intro cic h
    simp [Sd.card_version, h]
  · intro dev bw df rf e h0 h1
    simp [Sd.init, Sd.init_acquire, h0, h1]

/-- Witness for C7 (amended): pattern `0xAA` classifies as V2, pattern 0 as
V1, and a timed-out check command aborts `init` with `Timeout`. -/
theorem c7_version_classification_witness :
    Sd.card_version 0xAA = .V2
    ∧ Sd.card_version 0 = .V1
    ∧ Sd.init c7dev .Four none 1 1 = some (.error .Timeout, none) :=
  ⟨c7_version_classification.1 0xAA rfl,
    c7_version_classification.2.1 0 (by decide),
    c7_version_classification.2.2 c7dev .Four 1 1 .Timeout rfl rfl⟩

/-- Claim C8: card-addressed operations invoked while no card is recorded
(`read_sd_status` and the card-status read) return `NoCard` and perform no
host-register writes; the guarded accessor itself reports `NoCard`. -/
theorem c8_no_card_guard (dev : Sd.Device) (fuel k : Nat) :
    Sd.read_sd_status none dev fuel k = (some (.error .NoCard), [])
    ∧ Sd.read_status none dev k = ((.error .NoCard, k), [])
    ∧ Sd.card none = .error .NoCard :=
  ⟨rfl, rfl, rfl⟩

/-- Claim C9: for every clock frequency, the command-issue polling loop of
`cmd` runs for exactly `5000 * (clock / 8 / 1000)` iterations: a run in
which no poll up to that bound shows a terminal status ends in
`SoftwareTimeout`, and a terminal success status first appearing at any
poll `j` below the bound (in particular at the very last iteration) is
still observed and yields success. -/
theorem c9_cmd_poll_budget (clock : Nat) (respZero : Bool)
    (sta : Nat → Sd.CmdSta) :
    Sd.cmd_timeout clock = 5000 * (clock / 8 / 1000)
    ∧ ((∀ j, j < Sd.cmd_timeout clock →
          Sd.sta_nonterminal respZero (sta j) = true) →
        Sd.cmd_engine respZero sta clock = .error .SoftwareTimeout)
    ∧ (∀ j, j < Sd.cmd_timeout clock →
        (∀ i, i < j → Sd.sta_nonterminal respZero (sta i) = true) →
        (sta j).cmdact = false → (sta j).ctimeout = false →
        (sta j).ccrcfail = false → (sta j).cmdsent = true →
        (sta j).cmdrend = true →
        Sd.cmd_engine respZero sta clock = .ok ()) := by
  refine ⟨rfl, ?_, ?_⟩
  · intro h
    apply Sd.cmd_poll_loop_nonterminal
    intro i hi
    simpa using h i (by simpa using hi)
  · intro j hj h hact htime hcrc hsent hrend
    apply Sd.cmd_poll_loop_success respZero sta j _ 0 hj
    · intro i hi
      simpa using h i hi
    · simpa using hact
    · simpa using htime
    · simpa using hcrc
    · simpa using hsent
    · simpa using hrend

/-- Witness for C9: at clock 8 MHz the budget is 5,000,000 iterations; a
status stream that always reports `cmdact` exhausts it with
`SoftwareTimeout`, and a stream that is terminal-successful at poll 0
succeeds. -/
theorem c9_cmd_poll_budget_witness :
    Sd.cmd_engine true (fun _ => ⟨true, false, false, false, false⟩) 8000000
        = .error .SoftwareTimeout
    ∧ Sd.cmd_engine false (fun _ => ⟨false, false, false, true, true⟩) 8000000
        = .ok () := by
  constructor
  · exact (c9_cmd_poll_budget 8000000 true _).2.1 (fun j _ => rfl)
  · exact (c9_cmd_poll_budget 8000000 false _).2.2 0 (by decide)
      (fun i hi => absurd hi (Nat.not_lt_zero i)) rfl rfl rfl rfl rfl

/-- Counterexample to claim C10: `read_wakeup_reason` does not resolve to a
single wake-up reason — with SR1 = 3 (wake-up flags 1 and 2 both pending)
the returned `WakeUpSource` has both `wkup1` and `wkup2` set. -/
theorem c10_counterexample_two_flags :
    Pwr.wkup1 (Pwr.read_wakeup_reason 3) = true
    ∧ Pwr.wkup2 (Pwr.read_wakeup_reason 3) = true := by
  decide

/-- Claim C10 (amended): `read_wakeup_reason` returns the full wake-flags
bitmap, truncated to the 16-bit `WakeUpSource` field: each of the six wake
flags of SR1 (bits 0–4 and bit 15) is preserved bit-for-bit in the result,
so several simultaneously pending flags are all visible. -/
theorem c10_full_wakeup_bitmap (sr1 : Nat) :
    (Pwr.wkup1 (Pwr.read_wakeup_reason sr1) = true ↔ sr1 % 2 = 1)
    ∧ (Pwr.wkup2 (Pwr.read_wakeup_reason sr1) = true ↔ sr1 / 2 % 2 = 1)
    ∧ (Pwr.wkup3 (Pwr.read_wakeup_reason sr1) = true ↔ sr1 / 4 % 2 = 1)
    ∧ (Pwr.wkup4 (Pwr.read_wakeup_reason sr1) = true ↔ sr1 / 8 % 2 = 1)
    ∧ (Pwr.wkup5 (Pwr.read_wakeup_reason sr1) = true ↔ sr1 / 16 % 2 = 1)
    ∧ (Pwr.internal_wkup (Pwr.read_wakeup_reason sr1) = true
        ↔ sr1 / 32768 % 2 = 1) := by
  simp only [Pwr.read_wakeup_reason, Pwr.wkup1, Pwr.wkup2, Pwr.wkup3,
    Pwr.wkup4, Pwr.wkup5, Pwr.internal_wkup, decide_eq_true_eq]
  refine ⟨?_, ?_, ?_, ?_, ?_, ?_⟩ <;> omega
